import Mathlib

/-!
# A-Lister: verification of the spec against the code

Shallow embedding of the A-Lister MCP server (`src/db.ts`, `src/server.ts`).

The Postgres database is modelled as an explicit state record `DB` whose
tables are Lean lists.  `uuidv4()` and SQL `now()` are modelled by the
deterministic counters `nextId` / `now` in the state: each generated id and
each mutating statement consumes a tick, so ids and creation times are
distinct, mirroring the uniqueness the real system relies on.  `writes`
counts executed mutating SQL statements (used to state "no write is
attempted/issued" claims).  `Math.random()` in `resolveHandle` is modelled
by an explicit `rand : Nat` oracle argument.

Tool handlers are modelled after the point where the viewer has been
resolved by `getViewer()` / `ensureUser` (that per-request step touches only
the `users` table and is modelled separately as `ensureUser`); each handler
takes the resolved `viewerId` and returns the new state together with
`Except`-style success (view payload and human message) or the thrown error
message.  View assembly is read-only in the source and is modelled as pure
functions of the state.
-/

namespace AListr

/-- Item status, the `"active" | "done"` union of `db.ts`. -/
inductive Status where
  | active : Status
  | done : Status
deriving DecidableEq, Repr

/-- A row of the `users` table (`DbUser` in `db.ts`, plus `created_at`
which the SQL orders by). -/
structure UserRow where
  id : Nat
  auth_provider_id : String
  handle : String
  display_name : Option String
  bio : Option String
  avatar_url : Option String
  created_at : Nat
deriving DecidableEq, Repr

/-- A row of the `lists` table. -/
structure ListRow where
  id : Nat
  owner_id : Nat
  title : String
  type : String
  visibility : String
  created_at : Nat
  updated_at : Nat
deriving DecidableEq, Repr

/-- A row of the `items` table (full row, including `updated_at`). -/
structure Item where
  id : Nat
  list_id : Nat
  title : String
  note : Option String
  url : Option String
  status : Status
  order_index : Nat
  created_at : Nat
  updated_at : Nat
deriving DecidableEq, Repr

/-- The projection of an item returned by `getItemsByList` (`ItemRow` in
`db.ts`): every column except `updated_at`. -/
structure ItemRow where
  id : Nat
  list_id : Nat
  title : String
  note : Option String
  url : Option String
  status : Status
  order_index : Nat
  created_at : Nat
deriving DecidableEq, Repr

/-- A row of the `bookmarks` table. -/
structure BookmarkRow where
  id : Nat
  user_id : Nat
  source_item_id : Nat
  source_list_id : Nat
  source_user_id : Nat
  created_item_id : Nat
  created_at : Nat
deriving DecidableEq, Repr

/-- `ListSummary` of `db.ts`: a list joined with its owner and its
active/done item counts. -/
structure ListSummary where
  id : Nat
  owner_id : Nat
  title : String
  type : String
  visibility : String
  active_count : Nat
  done_count : Nat
  owner_handle : String
  owner_display_name : Option String
deriving DecidableEq, Repr

/-- The row shape returned by `findSourceItem` (item ⋈ list ⋈ owner). -/
structure SourceItem where
  id : Nat
  title : String
  note : Option String
  url : Option String
  list_id : Nat
  list_title : String
  list_type : String
  owner_id : Nat
  owner_handle : String
deriving DecidableEq, Repr

/-- The database state.  `nextId` models `uuidv4()` (fresh per generated
id), `now` models SQL `now()` (ticks once per mutating statement), and
`writes` counts executed mutating statements. -/
structure DB where
  users : List UserRow
  lists : List ListRow
  items : List Item
  bookmarks : List BookmarkRow
  nextId : Nat
  now : Nat
  writes : Nat
deriving DecidableEq, Repr

/-- SQL `order by key desc`: sort so that larger keys come first.  Ties are
broken by the sort's own (stable) placement, matching the fact that SQL
leaves tie order unspecified. -/
def sqlOrderDesc {α : Type} (key : α → Nat) (l : List α) : List α :=
  l.insertionSort (fun a b => key b ≤ key a)

/-! ## `db.ts` operations -/

/-- `select * from users where auth_provider_id = $1` (unique column). -/
def getUserByAuthProviderId (st : DB) (authProviderId : String) : Option UserRow :=
  st.users.find? (fun u => u.auth_provider_id = authProviderId)

/-- `select * from users where id = $1`. -/
def getUserById (st : DB) (userId : Nat) : Option UserRow :=
  st.users.find? (fun u => u.id = userId)

/-- The inner `resolveHandle` of `ensureUser`: keep the base handle if it is
free or owned by the same external identity, otherwise append `_` and a
random four-digit suffix (`Math.floor(Math.random() * 9000 + 1000)`,
modelled as `rand % 9000 + 1000`). -/
def resolveHandle (st : DB) (authProviderId : String) (base : String) (rand : Nat) : String :=
  match st.users.find? (fun u => u.handle = base) with
  | none => base
  | some u =>
    if u.auth_provider_id = authProviderId then base
    else base ++ "_" ++ Nat.repr (rand % 9000 + 1000)

/-- The `params.field !== undefined && params.field !== existing.field`
test of `ensureUser`: the field is supplied (outer `Option`) and differs
from the stored value. -/
def fieldChanged (supplied : Option (Option String)) (stored : Option String) : Bool :=
  match supplied with
  | none => false
  | some v => decide (v ≠ stored)

/-- `ensureUser` of `db.ts`.  `displayName`/`avatarUrl` are doubly optional:
the outer `Option` is JS `undefined` (field not supplied), the inner one is
SQL/JS `null`.  Returns the refreshed record exactly as the source does
(by re-reading the table). -/
def ensureUser (st : DB) (authProviderId handle : String)
    (displayName avatarUrl : Option (Option String)) (rand : Nat) :
    DB × Option UserRow :=
  let safeHandle := resolveHandle st authProviderId handle rand
  match getUserByAuthProviderId st authProviderId with
  | some existing =>
    let dnChanged : Bool := fieldChanged displayName existing.display_name
    let avChanged : Bool := fieldChanged avatarUrl existing.avatar_url
    let hChanged : Bool := decide (safeHandle ≠ existing.handle)
    if dnChanged || avChanged || hChanged then
      let st' := { st with
        users := st.users.map (fun u =>
          if u.id = existing.id then
            { u with
              display_name := if dnChanged then displayName.getD u.display_name else u.display_name
              avatar_url := if avChanged then avatarUrl.getD u.avatar_url else u.avatar_url
              handle := if hChanged then safeHandle else u.handle }
          else u)
        now := st.now + 1
        writes := st.writes + 1 }
      (st', getUserByAuthProviderId st' authProviderId)
    else
      (st, getUserByAuthProviderId st authProviderId)
  | none =>
    let id := st.nextId
    let st' := { st with
      users := { id := id, auth_provider_id := authProviderId, handle := safeHandle,
                 display_name := displayName.getD none, bio := none,
                 avatar_url := avatarUrl.getD none, created_at := st.now } :: st.users
      nextId := st.nextId + 1
      now := st.now + 1
      writes := st.writes + 1 }
    (st', getUserById st' id)

/-- Lower-casing used both for the JS `toLowerCase()` on the query and the
SQL `lower()` on columns: per-character ASCII lowering of the text. -/
def lowerStr (s : String) : List Char :=
  s.data.map Char.toLower

/-- Postgres `LIKE` pattern matching over characters: `%` matches any
sequence — equivalently, the rest of the pattern must match some suffix of
the text — `_` matches any single character, `\` escapes the next pattern
character, anything else matches itself.  (A pattern ending in a dangling
`\` is an error in Postgres; modelled as no match.) -/
def likeMatch : List Char → List Char → Bool
  | [], t => t.isEmpty
  | '%' :: p, t => t.tails.any (fun s => likeMatch p s)
  | '_' :: _, [] => false
  | '_' :: p, _ :: t => likeMatch p t
  | '\\' :: c :: p, d :: t => d = c && likeMatch p t
  | '\\' :: _, _ => false
  | _ :: _, [] => false
  | c :: p, d :: t => d = c && likeMatch p t

/-- `searchUsersByQuery` of `db.ts`:
`where lower(handle) like '%q%' or lower(display_name) like '%q%'
 order by created_at desc limit 20` with `q = queryText.toLowerCase()`.
`lower(NULL) like _` is SQL NULL, i.e. the row does not match on that
disjunct. -/
def searchUsersByQuery (st : DB) (queryText : String) : List UserRow :=
  let pat := '%' :: lowerStr queryText ++ ['%']
  (sqlOrderDesc (fun u => u.created_at)
    (st.users.filter (fun u =>
      likeMatch pat (lowerStr u.handle) ||
        match u.display_name with
        | some d => likeMatch pat (lowerStr d)
        | none => false))).take 20

/-- The summary row produced by the `getListsByOwner` /
`getListSummaryById` SQL: list columns, conditional counts over the items
of the list, and the joined owner columns. -/
def mkListSummary (st : DB) (l : ListRow) (u : UserRow) : ListSummary :=
  { id := l.id, owner_id := l.owner_id, title := l.title, type := l.type,
    visibility := l.visibility
    active_count := (st.items.filter (fun i => i.list_id = l.id ∧ i.status = Status.active)).length
    done_count := (st.items.filter (fun i => i.list_id = l.id ∧ i.status = Status.done)).length
    owner_handle := u.handle, owner_display_name := u.display_name }

/-- `getListsByOwner`: the viewer's lists (inner-joined with their owner
row) ordered by list creation time descending.  The inner join drops a
list whose owner row is missing, hence `filterMap`. -/
def getListsByOwner (st : DB) (ownerId : Nat) : List ListSummary :=
  (sqlOrderDesc (fun l => l.created_at) (st.lists.filter (fun l => l.owner_id = ownerId))).filterMap
    (fun l => (st.users.find? (fun u => u.id = l.owner_id)).map (mkListSummary st l))

/-- `getListSummaryById`: one list (inner-joined with its owner) with its
counts. -/
def getListSummaryById (st : DB) (listId : Nat) : Option ListSummary :=
  (st.lists.find? (fun l => l.id = listId)).bind
    (fun l => (st.users.find? (fun u => u.id = l.owner_id)).map (mkListSummary st l))

/-- `select id, owner_id, title, type, visibility from lists where id = $1`. -/
def getListById (st : DB) (listId : Nat) : Option ListRow :=
  st.lists.find? (fun l => l.id = listId)

/-- `createList`: insert a new list, always with visibility `"public"`. -/
def createList (st : DB) (ownerId : Nat) (title ty : String) : DB × Nat :=
  let id := st.nextId
  ({ st with
     lists := { id := id, owner_id := ownerId, title := title, type := ty,
                visibility := "public", created_at := st.now, updated_at := st.now } :: st.lists
     nextId := st.nextId + 1
     now := st.now + 1
     writes := st.writes + 1 }, id)

/-- `addItem`: insert a new item, always with status `'active'` and
`order_index = 0` (`note`/`url` are coalesced to NULL by the source before
the insert, so a single `Option` suffices here). -/
def addItem (st : DB) (listId : Nat) (title : String) (note url : Option String) : DB × Nat :=
  let id := st.nextId
  ({ st with
     items := { id := id, list_id := listId, title := title, note := note, url := url,
                status := Status.active, order_index := 0,
                created_at := st.now, updated_at := st.now } :: st.items
     nextId := st.nextId + 1
     now := st.now + 1
     writes := st.writes + 1 }, id)

/-- `updateItem`: partial update of the supplied fields (outer `Option` is
JS `undefined`), scoped by item id and list id; early-returns with no
statement executed when no field is supplied. -/
def updateItem (st : DB) (itemId listId : Nat)
    (title : Option String) (note url : Option (Option String)) : DB :=
  if title = none ∧ note = none ∧ url = none then st
  else
    { st with
      items := st.items.map (fun i =>
        if i.id = itemId ∧ i.list_id = listId then
          { i with title := title.getD i.title, note := note.getD i.note,
                   url := url.getD i.url, updated_at := st.now }
        else i)
      now := st.now + 1
      writes := st.writes + 1 }

/-- `setItemStatus`: `update items set status = $1, updated_at = now()
where id = $2 and list_id = $3` (the statement runs even when no row
matches). -/
def setItemStatus (st : DB) (itemId listId : Nat) (status : Status) : DB :=
  { st with
    items := st.items.map (fun i =>
      if i.id = itemId ∧ i.list_id = listId then
        { i with status := status, updated_at := st.now }
      else i)
    now := st.now + 1
    writes := st.writes + 1 }

/-- The column projection of `getItemsByList` (no `updated_at`). -/
def projItemRow (i : Item) : ItemRow :=
  { id := i.id, list_id := i.list_id, title := i.title, note := i.note, url := i.url,
    status := i.status, order_index := i.order_index, created_at := i.created_at }

/-- `getItemsByList`: the items of a list with the given status, ordered by
`created_at` descending. -/
def getItemsByList (st : DB) (listId : Nat) (status : Status) : List ItemRow :=
  (sqlOrderDesc (fun i => i.created_at)
    (st.items.filter (fun i => i.list_id = listId ∧ i.status = status))).map projItemRow

/-- `createBookmark`: insert one audit row. -/
def createBookmark (st : DB) (userId sourceItemId sourceListId sourceUserId createdItemId : Nat) : DB :=
  { st with
    bookmarks := { id := st.nextId, user_id := userId, source_item_id := sourceItemId,
                   source_list_id := sourceListId, source_user_id := sourceUserId,
                   created_item_id := createdItemId, created_at := st.now } :: st.bookmarks
    nextId := st.nextId + 1
    now := st.now + 1
    writes := st.writes + 1 }

/-- `findSourceItem`: the item joined with its list and the list's owner
(inner joins: all three rows must exist). -/
def findSourceItem (st : DB) (sourceItemId : Nat) : Option SourceItem :=
  (st.items.find? (fun i => i.id = sourceItemId)).bind (fun i =>
    (st.lists.find? (fun l => l.id = i.list_id)).bind (fun l =>
      (st.users.find? (fun u => u.id = l.owner_id)).map (fun u =>
        { id := i.id, title := i.title, note := i.note, url := i.url,
          list_id := i.list_id, list_title := l.title, list_type := l.type,
          owner_id := l.owner_id, owner_handle := u.handle })))

/-- `getOrCreateListByType`: the owner's most recently created list of the
given type (`order by created_at desc limit 1`), or a fresh list titled
`fallbackTitle` when none exists. -/
def getOrCreateListByType (st : DB) (ownerId : Nat) (ty fallbackTitle : String) : DB × Nat :=
  match (sqlOrderDesc (fun l => l.created_at)
      (st.lists.filter (fun l => l.owner_id = ownerId ∧ l.type = ty))).head? with
  | some l => (st, l.id)
  | none => createList st ownerId fallbackTitle ty

/-! ## `server.ts`: view assembly and tool handlers -/

/-- The viewer/profile summary shape built by `buildViewerSummary` and the
search-result mapping. -/
structure ViewerSummary where
  id : Nat
  handle : String
  displayName : Option String
  avatarUrl : Option String
deriving DecidableEq, Repr

/-- The single view payload shape shared by every tool response (the
`devTools` flag, a pure configuration echo, is omitted). -/
structure View where
  viewer : ViewerSummary
  mode : String
  lists : List ListSummary
  selectedList : Option ListSummary
  itemsActive : List ItemRow
  itemsDone : List ItemRow
  profileUser : Option ViewerSummary
  profileLists : Option (List ListSummary)
  searchResults : Option (List ViewerSummary)
deriving DecidableEq, Repr

/-- Projection of a user row to the summary shape. -/
def userSummary (u : UserRow) : ViewerSummary :=
  { id := u.id, handle := u.handle, displayName := u.display_name, avatarUrl := u.avatar_url }

/-- `buildViewerSummary`: throws when the viewer row is missing. -/
def buildViewerSummary (st : DB) (viewerId : Nat) : Except String ViewerSummary :=
  match getUserById st viewerId with
  | none => Except.error "Viewer not found."
  | some v => Except.ok (userSummary v)

/-- `requireListOwner`: the caller-side authorization check. -/
def requireListOwner (listOwnerId viewerId : Nat) : Except String Unit :=
  if listOwnerId ≠ viewerId then Except.error "You can only modify your own lists."
  else Except.ok ()

/-- `buildListView`: the "mine"/"profile" view of a selected list
(defaulting to the viewer's most recently created list). -/
def buildListView (st : DB) (viewerId : Nat) (listId : Option Nat) : Except String View :=
  match buildViewerSummary st viewerId with
  | Except.error e => Except.error e
  | Except.ok viewer =>
    let lists := getListsByOwner st viewerId
    let listId := match listId with
      | some v => some v
      | none => lists.head?.map (fun l => l.id)
    match listId with
    | none =>
      Except.ok { viewer := viewer, mode := "mine", lists := lists, selectedList := none,
                  itemsActive := [], itemsDone := [], profileUser := none,
                  profileLists := none, searchResults := none }
    | some lid =>
      match getListSummaryById st lid with
      | none => Except.error "List not found."
      | some selected =>
        let itemsActive := getItemsByList st lid Status.active
        let itemsDone := getItemsByList st lid Status.done
        if selected.owner_id ≠ viewerId then
          let profileUser := match getUserById st selected.owner_id with
            | some p => userSummary p
            | none => { id := selected.owner_id, handle := selected.owner_handle,
                        displayName := selected.owner_display_name, avatarUrl := none }
          Except.ok { viewer := viewer, mode := "profile", lists := lists,
                      selectedList := some selected, itemsActive := itemsActive,
                      itemsDone := itemsDone, profileUser := some profileUser,
                      profileLists := some (getListsByOwner st selected.owner_id),
                      searchResults := none }
        else
          Except.ok { viewer := viewer, mode := "mine", lists := lists,
                      selectedList := some selected, itemsActive := itemsActive,
                      itemsDone := itemsDone, profileUser := none,
                      profileLists := none, searchResults := none }

/-- The `query ? searchUsersByQuery(query) : []` step of `buildSearchView`
(the empty string is falsy in JS). -/
def searchResultsFor (st : DB) (q : String) : List UserRow :=
  if q = "" then [] else searchUsersByQuery st q

/-- `buildSearchView`. -/
def buildSearchView (st : DB) (viewerId : Nat) (q : String) : Except String View :=
  match buildViewerSummary st viewerId with
  | Except.error e => Except.error e
  | Except.ok viewer =>
    Except.ok { viewer := viewer, mode := "search", lists := getListsByOwner st viewerId,
                selectedList := none, itemsActive := [], itemsDone := [],
                profileUser := none, profileLists := none,
                searchResults := some ((searchResultsFor st q).map userSummary) }

/-- The `add_item` tool handler (after viewer resolution): look up the
list, check ownership, insert, rebuild the view.  The returned `DB` is the
state at return/throw time. -/
def add_item_tool (st : DB) (viewerId listId : Nat) (title : String)
    (note url : Option String) : DB × Except String (View × String) :=
  match getListById st listId with
  | none => (st, Except.error "List not found.")
  | some l =>
    match requireListOwner l.owner_id viewerId with
    | Except.error e => (st, Except.error e)
    | Except.ok _ =>
      let r := addItem st listId title note url
      (r.1, (buildListView r.1 viewerId (some listId)).map (fun v => (v, "Item added.")))

/-- The `update_item` tool handler (after viewer resolution). -/
def update_item_tool (st : DB) (viewerId listId itemId : Nat)
    (title : Option String) (note url : Option (Option String)) :
    DB × Except String (View × String) :=
  match getListById st listId with
  | none => (st, Except.error "List not found.")
  | some l =>
    match requireListOwner l.owner_id viewerId with
    | Except.error e => (st, Except.error e)
    | Except.ok _ =>
      let st1 := updateItem st itemId listId title note url
      (st1, (buildListView st1 viewerId (some listId)).map (fun v => (v, "Item updated.")))

/-- The `set_item_status` tool handler (after viewer resolution). -/
def set_item_status_tool (st : DB) (viewerId listId itemId : Nat) (status : Status) :
    DB × Except String (View × String) :=
  match getListById st listId with
  | none => (st, Except.error "List not found.")
  | some l =>
    match requireListOwner l.owner_id viewerId with
    | Except.error e => (st, Except.error e)
    | Except.ok _ =>
      let st1 := setItemStatus st itemId listId status
      (st1, (buildListView st1 viewerId (some listId)).map (fun v => (v, "Item moved.")))

/-- The `bookmark_item` tool handler (after viewer resolution): find the
source, short-circuit on own items, otherwise resolve the destination
list, copy the item, record the audit row and rebuild the view. -/
def bookmark_item_tool (st : DB) (viewerId sourceItemId : Nat) (viewingListId : Option Nat) :
    DB × Except String (View × String) :=
  match findSourceItem st sourceItemId with
  | none => (st, Except.error "Source item not found.")
  | some source =>
    if source.owner_id = viewerId then
      (st, (buildListView st viewerId (some (viewingListId.getD source.list_id))).map
        (fun v => (v, "That item is already yours.")))
    else
      let r1 := getOrCreateListByType st viewerId source.list_type source.list_title
      let r2 := addItem r1.1 r1.2 source.title source.note source.url
      let st3 := createBookmark r2.1 viewerId source.id source.list_id source.owner_id r2.2
      let viewRes := match viewingListId with
        | some vl => buildListView st3 viewerId (some vl)
        | none => buildListView st3 viewerId (some r1.2)
      (st3, viewRes.map (fun v => (v, "Item bookmarked.")))

/-- The message component of a tool result, when it succeeded. -/
def resultMsg (r : Except String (View × String)) : Option String :=
  match r with
  | Except.ok vm => some vm.2
  | Except.error _ => none

/-! ## General list lemmas -/

section ListLemmas

variable {α : Type} {β : Type}

/-- Filtering commutes with mapping when the predicate factors through the
map. -/
theorem filter_map_comm (f : α → β) (p : α → Bool) (q : β → Bool)
    (hpq : ∀ a, p a = q (f a)) (l : List α) :
    (l.filter p).map f = (l.map f).filter q := by
  induction l with
  | nil => rfl
  | cons a t ih =>
    simp only [List.filter_cons, List.map_cons, hpq a]
    cases hq : q (f a) <;> simp [hq, ih]

/-- Sorting commutes with mapping when the sort key factors through the
map. -/
theorem map_sqlOrderDesc (f : α → β) (ka : α → Nat) (kb : β → Nat)
    (hk : ∀ a, kb (f a) = ka a) (l : List α) :
    (sqlOrderDesc ka l).map f = sqlOrderDesc kb (l.map f) := by
  unfold sqlOrderDesc
  exact List.map_insertionSort _ _ f l (fun a _ b _ => by simp [hk])

theorem mem_sqlOrderDesc (key : α → Nat) (l : List α) (x : α) :
    x ∈ sqlOrderDesc key l ↔ x ∈ l :=
  List.mem_insertionSort _

theorem pairwise_sqlOrderDesc (key : α → Nat) (l : List α) :
    (sqlOrderDesc key l).Pairwise (fun a b => key b ≤ key a) := by
  haveI : IsTotal α (fun a b => key b ≤ key a) := ⟨fun a b => Nat.le_total (key b) (key a)⟩
  haveI : IsTrans α (fun a b => key b ≤ key a) := ⟨fun a b c h1 h2 => Nat.le_trans h2 h1⟩
  exact List.sorted_insertionSort _ l

/-- The head of a descending sort belongs to the list. -/
theorem head?_sqlOrderDesc_mem (key : α → Nat) (l : List α) (x : α)
    (h : (sqlOrderDesc key l).head? = some x) : x ∈ l :=
  (mem_sqlOrderDesc key l x).mp (List.mem_of_mem_head? (Option.mem_def.mpr h))

/-- The head of a descending sort has the maximal key. -/
theorem head?_sqlOrderDesc_max (key : α → Nat) (l : List α) (x : α)
    (h : (sqlOrderDesc key l).head? = some x) : ∀ y ∈ l, key y ≤ key x := by
  intro y hy
  rw [← mem_sqlOrderDesc key] at hy
  have hp := pairwise_sqlOrderDesc key l
  cases hs : sqlOrderDesc key l with
  | nil => rw [hs] at h; cases h
  | cons a t =>
    rw [hs] at h hy hp
    simp only [List.head?_cons, Option.some.injEq] at h
    subst h
    rcases List.mem_cons.mp hy with rfl | hmem
    · exact Nat.le_refl _
    · exact (List.pairwise_cons.mp hp).1 y hmem

/-- An empty descending sort comes from an empty list. -/
theorem sqlOrderDesc_eq_nil (key : α → Nat) (l : List α)
    (h : (sqlOrderDesc key l).head? = none) : l = [] := by
  cases hs : sqlOrderDesc key l with
  | cons a t => rw [hs] at h; cases h
  | nil =>
    have := congrArg List.length hs
    rw [sqlOrderDesc, List.length_insertionSort] at this
    exact List.eq_nil_of_length_eq_zero this

/-- Mapping a function that is the identity on every element of the list. -/
theorem map_id_of_mem {f : α → α} {l : List α} (h : ∀ x ∈ l, f x = x) :
    l.map f = l := by
  induction l with
  | nil => rfl
  | cons a t ih =>
    simp only [List.map_cons, h a (List.mem_cons_self a t),
      ih (fun x hx => h x (List.mem_cons_of_mem a hx))]

end ListLemmas

/-! ## Claims -/

/-- C1: for `add_item`, `update_item` and `set_item_status`, if the
referenced list exists but its owner differs from the viewer, the handler
fails with the permission error and returns the state completely unchanged
(in particular no list, item or bookmark data changes and no write is
attempted). -/
theorem c1_owner_mismatch_rejected (st : DB) (viewerId listId itemId : Nat)
    (l : ListRow) (title : String) (note url : Option String)
    (title2 : Option String) (note2 url2 : Option (Option String)) (status : Status)
    (hList : getListById st listId = some l) (hOwn : l.owner_id ≠ viewerId) :
    add_item_tool st viewerId listId title note url
        = (st, Except.error "You can only modify your own lists.") ∧
    update_item_tool st viewerId listId itemId title2 note2 url2
        = (st, Except.error "You can only modify your own lists.") ∧
    set_item_status_tool st viewerId listId itemId status
        = (st, Except.error "You can only modify your own lists.") := by
  unfold add_item_tool update_item_tool set_item_status_tool requireListOwner
  rw [hList]
  simp [hOwn]

/-- C3: bookmarking one's own item is a no-op: the state is returned
completely unchanged (no item, list or bookmark created) and the result is
the current view paired with the "already yours" message. -/
theorem c3_bookmark_own_item_noop (st : DB) (viewerId sourceItemId : Nat)
    (viewingListId : Option Nat) (source : SourceItem)
    (hsrc : findSourceItem st sourceItemId = some source)
    (hown : source.owner_id = viewerId) :
    bookmark_item_tool st viewerId sourceItemId viewingListId
      = (st, (buildListView st viewerId (some (viewingListId.getD source.list_id))).map
          (fun v => (v, "That item is already yours."))) := by
  unfold bookmark_item_tool
  rw [hsrc]
  simp [hown]

/-- C10: a successful bookmark of another user's item prepends exactly one
new item which copies the source's title/note/url but always has status
`active` and `order_index` 0, whatever the source item's status was. -/
theorem c10_bookmark_copy_is_active (st : DB) (viewerId sourceItemId : Nat)
    (viewingListId : Option Nat) (source : SourceItem)
    (hsrc : findSourceItem st sourceItemId = some source)
    (hown : source.owner_id ≠ viewerId) :
    ∃ ni : Item,
      (bookmark_item_tool st viewerId sourceItemId viewingListId).1.items = ni :: st.items ∧
      ni.status = Status.active ∧ ni.order_index = 0 ∧
      ni.title = source.title ∧ ni.note = source.note ∧ ni.url = source.url := by
  unfold bookmark_item_tool
  rw [hsrc]
  dsimp only
  rw [if_neg hown]
  unfold getOrCreateListByType
  cases hh : (sqlOrderDesc (fun l => l.created_at)
      (st.lists.filter (fun l => l.owner_id = viewerId ∧ l.type = source.list_type))).head? with
  | some l0 => exact ⟨_, rfl, rfl, rfl, rfl, rfl, rfl⟩
  | none => exact ⟨_, rfl, rfl, rfl, rfl, rfl, rfl⟩

/-- The conclusion of claim C2: the effects of bookmarking another user's
item.  `st'` is the post-state; the count of the viewer's lists of the
source's type grows by at most one (reusing the most recently created one
when one exists, otherwise creating one titled after the source list); the
destination list gains exactly one item copying title/note/url; and exactly
one bookmark row is added referencing the five identifiers. -/
def C2Prop (st : DB) (viewerId sourceItemId : Nat) (viewingListId : Option Nat)
    (source : SourceItem) : Prop :=
  let st' := (bookmark_item_tool st viewerId sourceItemId viewingListId).1
  let cnt := fun (s : DB) =>
    (s.lists.filter (fun l => l.owner_id = viewerId ∧ l.type = source.list_type)).length
  cnt st' ≤ cnt st + 1 ∧
  ∃ targetId createdId newItem,
    st'.items = newItem :: st.items ∧
    newItem.id = createdId ∧ newItem.list_id = targetId ∧
    newItem.title = source.title ∧ newItem.note = source.note ∧ newItem.url = source.url ∧
    ((∃ l0, l0 ∈ st.lists ∧ l0.owner_id = viewerId ∧ l0.type = source.list_type ∧
        targetId = l0.id ∧
        (∀ l ∈ st.lists, l.owner_id = viewerId → l.type = source.list_type →
          l.created_at ≤ l0.created_at) ∧
        st'.lists = st.lists ∧ cnt st' = cnt st) ∨
     ((∀ l ∈ st.lists, ¬(l.owner_id = viewerId ∧ l.type = source.list_type)) ∧
      (∃ nl, st'.lists = nl :: st.lists ∧ nl.id = targetId ∧ nl.owner_id = viewerId ∧
        nl.type = source.list_type ∧ nl.title = source.list_title) ∧
      cnt st' = cnt st + 1)) ∧
    (st'.items.filter (fun i => i.list_id = targetId)).length
      = (st.items.filter (fun i => i.list_id = targetId)).length + 1 ∧
    ∃ b, st'.bookmarks = b :: st.bookmarks ∧ b.user_id = viewerId ∧
      b.source_item_id = source.id ∧ b.source_list_id = source.list_id ∧
      b.source_user_id = source.owner_id ∧ b.created_item_id = createdId

/-- C2: bookmarking an existing item owned by another user has exactly the
effects described by `C2Prop`. -/
theorem c2_bookmark_other_item (st : DB) (viewerId sourceItemId : Nat)
    (viewingListId : Option Nat) (source : SourceItem)
    (hsrc : findSourceItem st sourceItemId = some source)
    (hown : source.owner_id ≠ viewerId) :
    C2Prop st viewerId sourceItemId viewingListId source := by
  unfold C2Prop bookmark_item_tool
  rw [hsrc]
  dsimp only
  rw [if_neg hown]
  unfold getOrCreateListByType
  cases hh : (sqlOrderDesc (fun l => l.created_at)
      (st.lists.filter (fun l => l.owner_id = viewerId ∧ l.type = source.list_type))).head? with
  | some l0 =>
    have hmem := head?_sqlOrderDesc_mem _ _ _ hh
    have hmax := head?_sqlOrderDesc_max _ _ _ hh
    rw [List.mem_filter] at hmem
    simp only [decide_eq_true_eq] at hmem
    refine ⟨?_, l0.id, st.nextId, _, rfl, rfl, rfl, rfl, rfl, rfl, ?_, ?_, _, rfl, rfl,
      rfl, rfl, rfl, rfl⟩
    · exact Nat.le_succ _
    · refine Or.inl ⟨l0, hmem.1, hmem.2.1, hmem.2.2, rfl, ?_, rfl, rfl⟩
      intro l hl h1 h2
      exact hmax l (List.mem_filter.mpr ⟨hl, by simp [h1, h2]⟩)
    · simp [createBookmark, addItem, List.filter_cons]
  | none =>
    have hnil : st.lists.filter (fun l => l.owner_id = viewerId ∧ l.type = source.list_type) = [] :=
      sqlOrderDesc_eq_nil _ _ hh
    rw [List.filter_eq_nil_iff] at hnil
    simp only [decide_eq_true_eq, not_and] at hnil
    refine ⟨?_, st.nextId, st.nextId + 1, _, rfl, rfl, rfl, rfl, rfl, rfl, ?_, ?_, _, rfl,
      rfl, rfl, rfl, rfl, rfl⟩
    · simp [createBookmark, addItem, createList, List.filter_cons]
    · refine Or.inr ⟨fun l hl hco => (hnil l hl) hco.1 hco.2, ⟨_, rfl, rfl, rfl, rfl, rfl⟩, ?_⟩
      simp [createBookmark, addItem, createList, List.filter_cons]
    · simp [createBookmark, addItem, createList, List.filter_cons]

/-! ### Concrete state for the witnesses -/

/-- Witness row: Alice. -/
def aliceW : UserRow :=
  { id := 1, auth_provider_id := "a1", handle := "abc", display_name := some "Alice",
    bio := none, avatar_url := none, created_at := 0 }

/-- Witness row: Bob. -/
def bobW : UserRow :=
  { id := 2, auth_provider_id := "a2", handle := "bob", display_name := none,
    bio := none, avatar_url := none, created_at := 1 }

/-- Witness row: Alice's "Books" list. -/
def booksW : ListRow :=
  { id := 10, owner_id := 1, title := "Books", type := "book", visibility := "public",
    created_at := 2, updated_at := 2 }

/-- Witness row: Bob's "Movies" list. -/
def moviesW : ListRow :=
  { id := 11, owner_id := 2, title := "Movies", type := "movie", visibility := "public",
    created_at := 3, updated_at := 3 }

/-- Witness row: Alice's done item "Dune" in "Books". -/
def duneW : Item :=
  { id := 20, list_id := 10, title := "Dune", note := some "classic", url := some "http://x",
    status := Status.done, order_index := 0, created_at := 4, updated_at := 4 }

/-- The joined source row for `duneW`. -/
def srcW : SourceItem :=
  { id := 20, title := "Dune", note := some "classic", url := some "http://x",
    list_id := 10, list_title := "Books", list_type := "book", owner_id := 1,
    owner_handle := "abc" }

/-- The witness database. -/
def dbW : DB :=
  { users := [aliceW, bobW], lists := [booksW, moviesW], items := [duneW],
    bookmarks := [], nextId := 100, now := 50, writes := 0 }

/-- Witness for C1: Bob mutating Alice's list is rejected. -/
theorem c1_owner_mismatch_rejected_witness :
    getListById dbW 10 = some booksW ∧ booksW.owner_id ≠ 2 ∧
    (add_item_tool dbW 2 10 "t" none none
        = (dbW, Except.error "You can only modify your own lists.") ∧
     update_item_tool dbW 2 10 99 none none none
        = (dbW, Except.error "You can only modify your own lists.") ∧
     set_item_status_tool dbW 2 10 99 Status.done
        = (dbW, Except.error "You can only modify your own lists.")) :=
  ⟨by decide, by decide,
   c1_owner_mismatch_rejected dbW 2 10 99 booksW "t" none none none none none Status.done
     (by decide) (by decide)⟩

/-- Witness for C3: Alice bookmarking her own item is a no-op. -/
theorem c3_bookmark_own_item_noop_witness :
    findSourceItem dbW 20 = some srcW ∧ srcW.owner_id = 1 ∧
    bookmark_item_tool dbW 1 20 none
      = (dbW, (buildListView dbW 1 (some ((none : Option Nat).getD srcW.list_id))).map
          (fun v => (v, "That item is already yours."))) :=
  ⟨by decide, rfl, c3_bookmark_own_item_noop dbW 1 20 none srcW (by decide) rfl⟩

/-- Witness for C10: Bob bookmarking Alice's *done* item yields an
*active* copy. -/
theorem c10_bookmark_copy_is_active_witness :
    findSourceItem dbW 20 = some srcW ∧ srcW.owner_id ≠ 2 ∧ duneW.status = Status.done ∧
    (∃ ni : Item, (bookmark_item_tool dbW 2 20 none).1.items = ni :: dbW.items ∧
      ni.status = Status.active ∧ ni.order_index = 0 ∧
      ni.title = srcW.title ∧ ni.note = srcW.note ∧ ni.url = srcW.url) :=
  ⟨by decide, by decide, rfl,
   c10_bookmark_copy_is_active dbW 2 20 none srcW (by decide) (by decide)⟩

/-- Witness for C2: Bob bookmarking Alice's item (Bob has no "book" list,
so one is created). -/
theorem c2_bookmark_other_item_witness :
    findSourceItem dbW 20 = some srcW ∧ srcW.owner_id ≠ 2 ∧
    C2Prop dbW 2 20 none srcW :=
  ⟨by decide, by decide, c2_bookmark_other_item dbW 2 20 none srcW (by decide) (by decide)⟩

/-- `updateItem` touches only `items`/`now`/`writes`. -/
theorem updateItem_frame (st : DB) (itemId listId : Nat) (title : Option String)
    (note url : Option (Option String)) :
    (updateItem st itemId listId title note url).lists = st.lists ∧
    (updateItem st itemId listId title note url).users = st.users ∧
    (updateItem st itemId listId title note url).bookmarks = st.bookmarks := by
  unfold updateItem
  split
  · exact ⟨rfl, rfl, rfl⟩
  · exact ⟨rfl, rfl, rfl⟩

/-- Viewing one's own existing list always assembles successfully. -/
theorem buildListView_own_ok (st : DB) (viewerId listId : Nat) (l : ListRow) (u : UserRow)
    (hList : getListById st listId = some l) (hOwn : l.owner_id = viewerId)
    (hViewer : getUserById st viewerId = some u) :
    ∃ v, buildListView st viewerId (some listId) = Except.ok v := by
  unfold getListById at hList
  unfold getUserById at hViewer
  unfold buildListView buildViewerSummary getUserById getListSummaryById
  rw [hViewer]
  dsimp only
  rw [hList]
  simp only [Option.some_bind, hOwn, hViewer, Option.map_some']
  rw [if_neg (by simp [mkListSummary, hOwn])]
  exact ⟨_, rfl⟩

/-- C9 counterexample: on a state where list 10 exists, is owned by viewer
1, and no item 99 exists in it, both `set_item_status` and `update_item`
report success rather than surfacing a not-found failure — refuting the
claim as stated. -/
theorem c9_counterexample :
    resultMsg (set_item_status_tool dbW 1 10 99 Status.done).2 = some "Item moved." ∧
    resultMsg (update_item_tool dbW 1 10 99 (some "x") none none).2 = some "Item updated." := by
  constructor <;> rfl

/-- C9 (amended): `update_item` / `set_item_status` on an existing owned
list but a nonexistent item silently succeed as no-ops: the SQL update
matches zero rows, no item/list/bookmark data changes, and the handlers
report the usual success messages. -/
theorem c9_missing_item_silent_noop (st : DB) (viewerId listId itemId : Nat)
    (l : ListRow) (u : UserRow) (title : Option String)
    (note url : Option (Option String)) (status : Status)
    (hList : getListById st listId = some l)
    (hOwn : l.owner_id = viewerId)
    (hViewer : getUserById st viewerId = some u)
    (hNo : ∀ i ∈ st.items, ¬(i.id = itemId ∧ i.list_id = listId)) :
    (set_item_status_tool st viewerId listId itemId status).1.items = st.items ∧
    resultMsg (set_item_status_tool st viewerId listId itemId status).2 = some "Item moved." ∧
    (update_item_tool st viewerId listId itemId title note url).1.items = st.items ∧
    resultMsg (update_item_tool st viewerId listId itemId title note url).2 = some "Item updated." ∧
    (set_item_status_tool st viewerId listId itemId status).1.lists = st.lists ∧
    (set_item_status_tool st viewerId listId itemId status).1.bookmarks = st.bookmarks ∧
    (update_item_tool st viewerId listId itemId title note url).1.lists = st.lists ∧
    (update_item_tool st viewerId listId itemId title note url).1.bookmarks = st.bookmarks := by
  have hfr := updateItem_frame st itemId listId title note url
  have hi1 : (setItemStatus st itemId listId status).items = st.items :=
    map_id_of_mem (fun i hi => if_neg (hNo i hi))
  have hi2 : (updateItem st itemId listId title note url).items = st.items := by
    unfold updateItem
    split
    · rfl
    · exact map_id_of_mem (fun i hi => if_neg (hNo i hi))
  have hL2 : getListById (updateItem st itemId listId title note url) listId = some l := by
    show (updateItem st itemId listId title note url).lists.find? _ = some l
    rw [hfr.1]
    exact hList
  have hV2 : getUserById (updateItem st itemId listId title note url) viewerId = some u := by
    show (updateItem st itemId listId title note url).users.find? _ = some u
    rw [hfr.2.1]
    exact hViewer
  obtain ⟨v1, hv1⟩ := buildListView_own_ok (setItemStatus st itemId listId status)
    viewerId listId l u hList hOwn hViewer
  obtain ⟨v2, hv2⟩ := buildListView_own_ok (updateItem st itemId listId title note url)
    viewerId listId l u hL2 hOwn hV2
  unfold set_item_status_tool update_item_tool
  rw [hList]
  dsimp only
  unfold requireListOwner
  rw [if_neg (fun hc => hc hOwn)]
  dsimp only
  rw [hv1, hv2]
  exact ⟨hi1, rfl, hi2, rfl, rfl, rfl, hfr.1, hfr.2.2⟩

/-- Witness for the amended C9 at the concrete state. -/
theorem c9_missing_item_silent_noop_witness :
    getListById dbW 10 = some booksW ∧ booksW.owner_id = 1 ∧
    getUserById dbW 1 = some aliceW ∧
    (∀ i ∈ dbW.items, ¬(i.id = 99 ∧ i.list_id = 10)) ∧
    ((set_item_status_tool dbW 1 10 99 Status.done).1.items = dbW.items ∧
     resultMsg (set_item_status_tool dbW 1 10 99 Status.done).2 = some "Item moved." ∧
     (update_item_tool dbW 1 10 99 (some "x") none none).1.items = dbW.items ∧
     resultMsg (update_item_tool dbW 1 10 99 (some "x") none none).2 = some "Item updated." ∧
     (set_item_status_tool dbW 1 10 99 Status.done).1.lists = dbW.lists ∧
     (set_item_status_tool dbW 1 10 99 Status.done).1.bookmarks = dbW.bookmarks ∧
     (update_item_tool dbW 1 10 99 (some "x") none none).1.lists = dbW.lists ∧
     (update_item_tool dbW 1 10 99 (some "x") none none).1.bookmarks = dbW.bookmarks) :=
  ⟨by decide, rfl, by decide, by decide,
   c9_missing_item_silent_noop dbW 1 10 99 booksW aliceW (some "x") none none Status.done
     (by decide) rfl (by decide) (by decide)⟩

/-- Every decimal digit character is a digit. -/
theorem digitChar_isDigit : ∀ k < 10, (Nat.digitChar k).isDigit = true := by decide

/-- Unfolding of `Nat.toDigitsCore` for a four-digit number. -/
theorem toDigitsCore_four (f n : Nat) (h1 : 1000 ≤ n) (h2 : n ≤ 9999) :
    Nat.toDigitsCore 10 (f + 4) n [] =
      [Nat.digitChar (n / 10 / 10 / 10 % 10), Nat.digitChar (n / 10 / 10 % 10),
       Nat.digitChar (n / 10 % 10), Nat.digitChar (n % 10)] := by
  have c1 : ¬ (n / 10 = 0) := by omega
  have c2 : ¬ (n / 10 / 10 = 0) := by omega
  have c3 : ¬ (n / 10 / 10 / 10 = 0) := by omega
  have c4 : n / 10 / 10 / 10 / 10 = 0 := by omega
  simp only [Nat.toDigitsCore, c1, c2, c3, c4, if_false, if_true, ite_true, ite_false]

/-- `Nat.repr` of a number between 1000 and 9999 is a string of four digit
characters. -/
theorem repr_of_four_digits (n : Nat) (h1 : 1000 ≤ n) (h2 : n ≤ 9999) :
    (Nat.repr n).length = 4 ∧ (Nat.repr n).data.all Char.isDigit = true := by
  have hn : n + 1 = (n - 3) + 4 := by omega
  unfold Nat.repr Nat.toDigits
  rw [hn, toDigitsCore_four (n - 3) n h1 h2]
  refine ⟨rfl, ?_⟩
  have e1 : n / 10 / 10 / 10 % 10 < 10 := by omega
  have e2 : n / 10 / 10 % 10 < 10 := by omega
  have e3 : n / 10 % 10 < 10 := by omega
  have e4 : n % 10 < 10 := by omega
  simp [List.asString, digitChar_isDigit _ e1, digitChar_isDigit _ e2,
    digitChar_isDigit _ e3, digitChar_isDigit _ e4]

/-- C4: `resolveHandle` keeps a candidate handle that is free or owned by
the same external identity; when the handle is taken by a different
identity it returns the candidate followed by an underscore and a
four-digit numeric suffix — in particular a handle distinct from the
candidate. -/
theorem c4_resolveHandle_spec (st : DB) (authProviderId base : String) (rand : Nat) :
    (st.users.find? (fun u => u.handle = base) = none →
      resolveHandle st authProviderId base rand = base) ∧
    (∀ u, st.users.find? (fun u => u.handle = base) = some u →
      u.auth_provider_id = authProviderId →
      resolveHandle st authProviderId base rand = base) ∧
    (∀ u, st.users.find? (fun u => u.handle = base) = some u →
      u.auth_provider_id ≠ authProviderId →
      ∃ s, resolveHandle st authProviderId base rand = base ++ "_" ++ s ∧
        s.length = 4 ∧ s.data.all Char.isDigit = true ∧
        resolveHandle st authProviderId base rand ≠ base) := by
  refine ⟨?_, ?_, ?_⟩
  · intro h
    unfold resolveHandle
    rw [h]
  · intro u hu heq
    unfold resolveHandle
    rw [hu]
    simp [heq]
  · intro u hu hne
    unfold resolveHandle
    rw [hu]
    dsimp only
    rw [if_neg hne]
    obtain ⟨hl, hd⟩ := repr_of_four_digits (rand % 9000 + 1000) (by omega) (by omega)
    refine ⟨Nat.repr (rand % 9000 + 1000), rfl, hl, hd, ?_⟩
    intro hEq
    have hlen := congrArg String.length hEq
    rw [String.length_append, String.length_append] at hlen
    have h1 : ("_" : String).length = 1 := rfl
    omega

/-- Witness for C4: handle "abc" is taken by Alice, a different identity
registers with candidate "abc" and random draw 8123. -/
theorem c4_resolveHandle_spec_witness :
    dbW.users.find? (fun u => u.handle = "abc") = some aliceW ∧
    aliceW.auth_provider_id ≠ "zz" ∧
    (∃ s, resolveHandle dbW "zz" "abc" 8123 = "abc" ++ "_" ++ s ∧
      s.length = 4 ∧ s.data.all Char.isDigit = true ∧
      resolveHandle dbW "zz" "abc" 8123 ≠ "abc") :=
  ⟨by decide, by decide,
   (c4_resolveHandle_spec dbW "zz" "abc" 8123).2.2 aliceW (by decide) (by decide)⟩

/-- The conclusion of claim C5, for an `ensureUser` call whose
`authProviderId` matches the existing row `e`: if no field changed
(display name and avatar unsupplied-or-equal, resolved handle equal) the
state is returned untouched — no write at all — with the stored record;
if anything changed, exactly one update statement rewrites exactly the
changed fields of `e`'s row and nothing else; in both cases the returned
record is the refreshed lookup on the resulting state. -/
def C5Prop (st : DB) (authProviderId handle : String)
    (displayName avatarUrl : Option (Option String)) (rand : Nat) (e : UserRow) : Prop :=
  (fieldChanged displayName e.display_name = false →
   fieldChanged avatarUrl e.avatar_url = false →
   resolveHandle st authProviderId handle rand = e.handle →
   ensureUser st authProviderId handle displayName avatarUrl rand = (st, some e)) ∧
  ((fieldChanged displayName e.display_name || fieldChanged avatarUrl e.avatar_url ||
      decide (resolveHandle st authProviderId handle rand ≠ e.handle)) = true →
   ((ensureUser st authProviderId handle displayName avatarUrl rand).1.users
      = st.users.map (fun u =>
          if u.id = e.id then
            { u with
              display_name := if fieldChanged displayName e.display_name then
                  displayName.getD u.display_name else u.display_name
              avatar_url := if fieldChanged avatarUrl e.avatar_url then
                  avatarUrl.getD u.avatar_url else u.avatar_url
              handle := if decide (resolveHandle st authProviderId handle rand ≠ e.handle) then
                  resolveHandle st authProviderId handle rand else u.handle }
          else u) ∧
    (ensureUser st authProviderId handle displayName avatarUrl rand).1.lists = st.lists ∧
    (ensureUser st authProviderId handle displayName avatarUrl rand).1.items = st.items ∧
    (ensureUser st authProviderId handle displayName avatarUrl rand).1.bookmarks = st.bookmarks ∧
    (ensureUser st authProviderId handle displayName avatarUrl rand).1.writes = st.writes + 1)) ∧
  (ensureUser st authProviderId handle displayName avatarUrl rand).2
    = getUserByAuthProviderId
        (ensureUser st authProviderId handle displayName avatarUrl rand).1 authProviderId

/-- C5: `ensureUser` on an existing identity updates only changed fields,
issues no write when nothing changed, and returns the refreshed record. -/
theorem c5_ensureUser_existing (st : DB) (authProviderId handle : String)
    (displayName avatarUrl : Option (Option String)) (rand : Nat) (e : UserRow)
    (hex : getUserByAuthProviderId st authProviderId = some e) :
    C5Prop st authProviderId handle displayName avatarUrl rand e := by
  unfold C5Prop ensureUser
  rw [hex]
  dsimp only
  refine ⟨?_, ?_, ?_⟩
  · intro h1 h2 h3
    rw [h1, h2, if_neg (by simp [h3])]
  · intro hch
    rw [if_pos hch]
    exact ⟨rfl, rfl, rfl, rfl, rfl⟩
  · by_cases hch : (fieldChanged displayName e.display_name || fieldChanged avatarUrl e.avatar_url ||
        decide (resolveHandle st authProviderId handle rand ≠ e.handle)) = true
    · rw [if_pos hch]
    · rw [if_neg hch]
      exact hex.symm

/-- Witness for C5: re-registering Alice's identity with identical data. -/
theorem c5_ensureUser_existing_witness :
    getUserByAuthProviderId dbW "a1" = some aliceW ∧
    C5Prop dbW "a1" "abc" (some (some "Alice")) (some none) 5 aliceW :=
  ⟨by decide, c5_ensureUser_existing dbW "a1" "abc" (some (some "Alice")) (some none) 5 aliceW
    (by decide)⟩

/-- `getItemsByList` rewritten over the projected items: filter predicate
and sort key only use projected columns. -/
theorem getItemsByList_eq_proj (s : DB) (lid : Nat) (st : Status) :
    getItemsByList s lid st
      = sqlOrderDesc (fun r => r.created_at)
          ((s.items.map projItemRow).filter (fun r => r.list_id = lid ∧ r.status = st)) := by
  unfold getItemsByList
  rw [map_sqlOrderDesc projItemRow (fun i => i.created_at) (fun r => r.created_at) (fun a => rfl)]
  rw [filter_map_comm projItemRow (fun i => decide (i.list_id = lid ∧ i.status = st))
      (fun r => decide (r.list_id = lid ∧ r.status = st)) (fun a => rfl) s.items]

/-- Status counts only depend on the projected items. -/
theorem itemCounts_eq_proj (s : DB) (lid : Nat) (st : Status) :
    (s.items.filter (fun i => i.list_id = lid ∧ i.status = st)).length
      = ((s.items.map projItemRow).filter (fun r => r.list_id = lid ∧ r.status = st)).length := by
  rw [← List.length_map (s.items.filter (fun i => decide (i.list_id = lid ∧ i.status = st)))
        projItemRow,
      filter_map_comm projItemRow (fun i => decide (i.list_id = lid ∧ i.status = st))
        (fun r => decide (r.list_id = lid ∧ r.status = st)) (fun a => rfl) s.items]

/-- Summaries only depend on the projected items. -/
theorem mkListSummary_congr (s1 s2 : DB)
    (h : s1.items.map projItemRow = s2.items.map projItemRow) (l : ListRow) (u : UserRow) :
    mkListSummary s1 l u = mkListSummary s2 l u := by
  have hc : ∀ stt : Status,
      (s1.items.filter (fun i => i.list_id = l.id ∧ i.status = stt)).length
        = (s2.items.filter (fun i => i.list_id = l.id ∧ i.status = stt)).length := by
    intro stt
    rw [itemCounts_eq_proj, h, ← itemCounts_eq_proj]
  unfold mkListSummary
  rw [hc Status.active, hc Status.done]


/-- `getListsByOwner` is unchanged when lists/users agree and items agree
up to projection. -/
theorem getListsByOwner_congr (s1 s2 : DB) (hl : s1.lists = s2.lists) (hu : s1.users = s2.users)
    (h : s1.items.map projItemRow = s2.items.map projItemRow) (oid : Nat) :
    getListsByOwner s1 oid = getListsByOwner s2 oid := by
  unfold getListsByOwner
  rw [hl, hu]
  apply List.filterMap_congr
  intro l _
  cases s2.users.find? (fun u => u.id = l.owner_id) with
  | none => rfl
  | some u => simp [mkListSummary_congr s1 s2 h l u]

/-- `getListSummaryById` is unchanged when lists/users agree and items
agree up to projection. -/
theorem getListSummaryById_congr (s1 s2 : DB) (hl : s1.lists = s2.lists)
    (hu : s1.users = s2.users)
    (h : s1.items.map projItemRow = s2.items.map projItemRow) (lid : Nat) :
    getListSummaryById s1 lid = getListSummaryById s2 lid := by
  unfold getListSummaryById
  rw [hl, hu]
  cases s2.lists.find? (fun l => l.id = lid) with
  | none => rfl
  | some l =>
    simp only [Option.some_bind]
    cases s2.users.find? (fun u => u.id = l.owner_id) with
    | none => rfl
    | some u => simp [mkListSummary_congr s1 s2 h l u]

/-- C6 -/
theorem c6_setItemStatus_idempotent (st : DB) (itemId listId : Nat) (status : Status) :
    (∀ lid s, getItemsByList
        (setItemStatus (setItemStatus st itemId listId status) itemId listId status) lid s
      = getItemsByList (setItemStatus st itemId listId status) lid s) ∧
    (∀ oid, getListsByOwner
        (setItemStatus (setItemStatus st itemId listId status) itemId listId status) oid
      = getListsByOwner (setItemStatus st itemId listId status) oid) ∧
    (∀ lid, getListSummaryById
        (setItemStatus (setItemStatus st itemId listId status) itemId listId status) lid
      = getListSummaryById (setItemStatus st itemId listId status) lid) := by
  have hproj :
      (setItemStatus (setItemStatus st itemId listId status) itemId listId status).items.map
          projItemRow
        = (setItemStatus st itemId listId status).items.map projItemRow := by
    show ((st.items.map _).map _).map projItemRow = (st.items.map _).map projItemRow
    rw [List.map_map, List.map_map, List.map_map]
    apply List.map_congr_left
    intro i _
    by_cases hc : i.id = itemId ∧ i.list_id = listId
    · simp [Function.comp, hc, projItemRow]
    · simp [Function.comp, hc, projItemRow]
  exact ⟨fun lid s => by rw [getItemsByList_eq_proj, getItemsByList_eq_proj, hproj],
    fun oid => getListsByOwner_congr
      (setItemStatus (setItemStatus st itemId listId status) itemId listId status)
      (setItemStatus st itemId listId status) rfl rfl hproj oid,
    fun lid => getListSummaryById_congr
      (setItemStatus (setItemStatus st itemId listId status) itemId listId status)
      (setItemStatus st itemId listId status) rfl rfl hproj lid⟩


/-- The columns of an item that determine `getItemsByList` apart from
`order_index`: used to state that the ordering ignores `order_index`. -/
structure ItemObs where
  id : Nat
  list_id : Nat
  title : String
  note : Option String
  url : Option String
  status : Status
  created_at : Nat
deriving DecidableEq, Repr

/-- Forget `order_index` in a result row. -/
def dropOrderIdx (r : ItemRow) : ItemObs :=
  { id := r.id, list_id := r.list_id, title := r.title, note := r.note, url := r.url,
    status := r.status, created_at := r.created_at }

/-- The `order_index`-free observation of a stored item. -/
def itemObs (i : Item) : ItemObs := dropOrderIdx (projItemRow i)

/-- C7 -/
theorem c7_getItemsByList_spec (st st2 : DB) (lid : Nat) (s : Status)
    (hord : st2.items.map itemObs = st.items.map itemObs) :
    (∀ x, x ∈ getItemsByList st lid s
        ↔ ∃ i, i ∈ st.items ∧ i.list_id = lid ∧ i.status = s ∧ projItemRow i = x) ∧
    (getItemsByList st lid s).Pairwise (fun a b => b.created_at ≤ a.created_at) ∧
    (getItemsByList st2 lid s).map dropOrderIdx = (getItemsByList st lid s).map dropOrderIdx := by
  refine ⟨?_, ?_, ?_⟩
  · intro x
    constructor
    · intro hx
      obtain ⟨i, hi, rfl⟩ := List.mem_map.mp hx
      rw [mem_sqlOrderDesc] at hi
      obtain ⟨hmem, hcond⟩ := List.mem_filter.mp hi
      simp only [decide_eq_true_eq] at hcond
      exact ⟨i, hmem, hcond.1, hcond.2, rfl⟩
    · rintro ⟨i, hmem, h1, h2, rfl⟩
      refine List.mem_map.mpr ⟨i, ?_, rfl⟩
      rw [mem_sqlOrderDesc]
      exact List.mem_filter.mpr ⟨hmem, by simp [h1, h2]⟩
  · unfold getItemsByList
    rw [List.pairwise_map]
    exact (pairwise_sqlOrderDesc (fun (i : Item) => i.created_at) _).imp (fun h => h)
  · rw [getItemsByList_eq_proj, getItemsByList_eq_proj]
    rw [map_sqlOrderDesc dropOrderIdx (fun r => r.created_at) (fun o => o.created_at)
        (fun a => rfl),
      map_sqlOrderDesc dropOrderIdx (fun r => r.created_at) (fun o => o.created_at)
        (fun a => rfl)]
    rw [filter_map_comm dropOrderIdx (fun r => decide (r.list_id = lid ∧ r.status = s))
        (fun o => decide (o.list_id = lid ∧ o.status = s)) (fun a => rfl),
      filter_map_comm dropOrderIdx (fun r => decide (r.list_id = lid ∧ r.status = s))
        (fun o => decide (o.list_id = lid ∧ o.status = s)) (fun a => rfl)]
    rw [List.map_map, List.map_map]
    show sqlOrderDesc _ (List.filter _ (st2.items.map itemObs)) = sqlOrderDesc _ (List.filter _ (st.items.map itemObs))
    rw [hord]

/-- Witness state for C7: `dbW` with the item's `order_index` changed. -/
def duneW2 : Item :=
  { id := 20, list_id := 10, title := "Dune", note := some "classic", url := some "http://x",
    status := Status.done, order_index := 5, created_at := 4, updated_at := 4 }

/-- `dbW` with `order_index` of the only item changed from 0 to 5. -/
def dbW2 : DB :=
  { users := [aliceW, bobW], lists := [booksW, moviesW], items := [duneW2],
    bookmarks := [], nextId := 100, now := 50, writes := 0 }

/-- Witness for C7 at the concrete state (with an `order_index` change
between `dbW2` and `dbW`). -/
theorem c7_getItemsByList_spec_witness :
    dbW2.items.map itemObs = dbW.items.map itemObs ∧
    ((∀ x, x ∈ getItemsByList dbW 10 Status.done
        ↔ ∃ i, i ∈ dbW.items ∧ i.list_id = 10 ∧ i.status = Status.done ∧ projItemRow i = x) ∧
     (getItemsByList dbW 10 Status.done).Pairwise (fun a b => b.created_at ≤ a.created_at) ∧
     (getItemsByList dbW2 10 Status.done).map dropOrderIdx
        = (getItemsByList dbW 10 Status.done).map dropOrderIdx) :=
  ⟨by decide, c7_getItemsByList_spec dbW dbW2 10 Status.done (by decide)⟩


/-- The classic substring test: the needle is a prefix of some suffix of
the haystack.  This is the claim-side reading of "contains the query as a
substring". -/
def containsSub (needle hay : List Char) : Bool :=
  hay.tails.any (fun s => needle.isPrefixOf s)

/-- A character list free of the `LIKE` metacharacters. -/
def wildcardFree (cs : List Char) : Prop :=
  ∀ c ∈ cs, c ≠ '%' ∧ c ≠ '_' ∧ c ≠ '\\'

/-- `List.any` only depends on the function's values on members. -/
theorem any_congr_of_mem {α : Type} {f g : α → Bool} {l : List α}
    (h : ∀ x ∈ l, f x = g x) : l.any f = l.any g := by
  induction l with
  | nil => rfl
  | cons a t ih =>
    simp only [List.any_cons, h a (List.mem_cons_self a t),
      ih (fun x hx => h x (List.mem_cons_of_mem a hx))]

/-- Unfolding of `likeMatch` at a leading `%`. -/
theorem likeMatch_pct (p t : List Char) :
    likeMatch ('%' :: p) t = t.tails.any (fun s => likeMatch p s) := by
  simp [likeMatch]

/-- `likeMatch` at a leading ordinary character, empty text. -/
theorem likeMatch_lit_nil (c : Char) (p : List Char)
    (h1 : c ≠ '%') (h2 : c ≠ '_') (h3 : c ≠ '\\') :
    likeMatch (c :: p) [] = false := by
  simp [likeMatch, h1, h2, h3]

/-- `likeMatch` at a leading ordinary character, nonempty text. -/
theorem likeMatch_lit_cons (c : Char) (p : List Char) (d : Char) (t : List Char)
    (h1 : c ≠ '%') (h2 : c ≠ '_') (h3 : c ≠ '\\') :
    likeMatch (c :: p) (d :: t) = (d = c && likeMatch p t) := by
  simp [likeMatch, h1, h2, h3]

/-- A wildcard-free pattern followed by `%` matches exactly the texts it
is a prefix of. -/
theorem likeMatch_literal (n : List Char) (hn : wildcardFree n) :
    ∀ t, likeMatch (n ++ ['%']) t = n.isPrefixOf t := by
  induction n with
  | nil =>
    intro t
    rw [List.nil_append, likeMatch_pct]
    have h0 : List.isPrefixOf ([] : List Char) t = true := by cases t <;> rfl
    rw [h0, List.any_eq_true]
    exact ⟨[], (List.mem_tails _ _).mpr List.nil_suffix, rfl⟩
  | cons c n' ih =>
    intro t
    obtain ⟨hc1, hc2, hc3⟩ := hn c (List.mem_cons_self c n')
    have hn' : wildcardFree n' := fun x hx => hn x (List.mem_cons_of_mem c hx)
    rw [List.cons_append]
    cases t with
    | nil => rw [likeMatch_lit_nil c (n' ++ ['%']) hc1 hc2 hc3]; rfl
    | cons d t' =>
      rw [likeMatch_lit_cons c (n' ++ ['%']) d t' hc1 hc2 hc3, ih hn' t']
      show (decide (d = c) && List.isPrefixOf n' t') = (c == d && List.isPrefixOf n' t')
      by_cases hdc : d = c
      · subst hdc
        simp
      · have hcd : (c == d) = false := beq_eq_false_iff_ne.mpr (fun h => hdc h.symm)
        simp [hdc, hcd]

/-- `%pattern%` with a wildcard-free pattern is the substring test. -/
theorem likeMatch_sub (n : List Char) (hn : wildcardFree n) (t : List Char) :
    likeMatch ('%' :: (n ++ ['%'])) t = containsSub n t := by
  rw [likeMatch_pct]
  unfold containsSub
  exact any_congr_of_mem (fun s _ => likeMatch_literal n hn s)

/-- The 26 lowercase letters are not `LIKE` metacharacters. -/
theorem lower_alpha_not_special :
    ∀ k < 26, Char.ofNat (97 + k) ≠ '%' ∧ Char.ofNat (97 + k) ≠ '_' ∧
      Char.ofNat (97 + k) ≠ '\\' := by decide

/-- `Char.toLower` cannot produce a `LIKE` metacharacter from a
non-metacharacter. -/
theorem toLower_not_special (c : Char) (h1 : c ≠ '%') (h2 : c ≠ '_') (h3 : c ≠ '\\') :
    Char.toLower c ≠ '%' ∧ Char.toLower c ≠ '_' ∧ Char.toLower c ≠ '\\' := by
  unfold Char.toLower
  by_cases hcond : c.toNat ≥ 65 ∧ c.toNat ≤ 90
  · rw [if_pos hcond]
    have hk : c.toNat + 32 = 97 + (c.toNat - 65) := by omega
    have hlt : c.toNat - 65 < 26 := by omega
    rw [hk]
    exact lower_alpha_not_special _ hlt
  · rw [if_neg hcond]
    exact ⟨h1, h2, h3⟩

/-- Lower-casing preserves wildcard-freeness. -/
theorem lowerStr_wildcardFree (s : String) (h : wildcardFree s.data) :
    wildcardFree (lowerStr s) := by
  intro c hc
  obtain ⟨d, hd, rfl⟩ := List.mem_map.mp hc
  obtain ⟨h1, h2, h3⟩ := h d hd
  exact toLower_not_special d h1 h2 h3

/-- The claim-side description of user search: exactly the users whose
handle or display name contains the query as a case-insensitive substring,
ordered by account creation time descending, capped at 20. -/
def searchSpec (st : DB) (q : String) : List UserRow :=
  (sqlOrderDesc (fun u => u.created_at)
    (st.users.filter (fun u =>
      containsSub (lowerStr q) (lowerStr u.handle) ||
        match u.display_name with
        | some d => containsSub (lowerStr q) (lowerStr d)
        | none => false))).take 20

/-- C8 (amended): user search on the empty query returns no results, and
on a wildcard-free query returns exactly the users whose handle or display
name contains the query case-insensitively, newest accounts first, capped
at 20.  (For queries containing the LIKE metacharacters `%`, `_` or `\`
the SQL pattern matching is weaker than substring containment — see the
counterexample.) -/
theorem c8_search_spec (st : DB) (q : String) :
    (q = "" → searchResultsFor st q = []) ∧
    (q ≠ "" → wildcardFree q.data → searchResultsFor st q = searchSpec st q) := by
  constructor
  · intro h
    simp [searchResultsFor, h]
  · intro hne hw
    unfold searchResultsFor
    rw [if_neg hne]
    unfold searchUsersByQuery searchSpec
    dsimp only
    have hwl := lowerStr_wildcardFree q hw
    congr 1
    congr 1
    apply List.filter_congr
    intro u _
    simp only [List.cons_append]
    rw [likeMatch_sub _ hwl]
    cases u.display_name with
    | none => rfl
    | some d =>
      dsimp only
      rw [likeMatch_sub _ hwl]

/-- C8 counterexample: the `LIKE` wildcard `_` in the query `"a_c"`
matches the handle `"abc"`, which does not contain `"a_c"` as a
substring: the search returns Alice although neither her handle nor her
display name contains the query. -/
theorem c8_counterexample :
    searchUsersByQuery dbW "a_c" = [aliceW] ∧
    containsSub (lowerStr "a_c") (lowerStr aliceW.handle) = false ∧
    containsSub (lowerStr "a_c") (lowerStr "Alice") = false ∧
    searchSpec dbW "a_c" = [] := by
  refine ⟨?_, ?_, ?_, ?_⟩ <;> decide

/-- Witness for the amended C8. -/
theorem c8_search_spec_witness :
    ("ab" : String) ≠ "" ∧ wildcardFree ("ab" : String).data ∧
    searchResultsFor dbW "ab" = searchSpec dbW "ab" ∧
    searchResultsFor dbW "" = [] :=
  ⟨by decide, by unfold wildcardFree; decide,
   (c8_search_spec dbW "ab").2 (by decide) (by unfold wildcardFree; decide),
   (c8_search_spec dbW "").1 rfl⟩

end AListr
